import Mathlib

/-!
Shallow embedding of `docs/_docs/code-snippets/cpp/src/compute_run.cpp`:
a documentation snippet that defines a compute function `PrintWord`, a
`BinaryType<PrintWord>` serialization descriptor, and a `main` that splits
a fixed sentence into words and dispatches one `PrintWord` per word via
`compute.Run`.
-/

namespace ComputeRun

/-- The user-defined value object `PrintWord`: wraps a single `std::string`
field `word`. -/
structure PrintWord where
  word : String
deriving DecidableEq, Repr

/-- `PrintWord()` — the default constructor is a no-op, so the member
`std::string word` is default-initialized to the empty string. -/
def PrintWord.defaultCtor : PrintWord :=
  { word := "" }

/-- `PrintWord(const std::string& word) : word(word)`. -/
def PrintWord.ofWord (w : String) : PrintWord :=
  { word := w }

/-- `virtual void Call()` — `std::cout << word << std::endl;`.
Standard output is modelled as the list of chunks written so far; `Call`
is a non-const member, so the (unchanged) object is returned alongside the
new output state. -/
def PrintWord.Call (obj : PrintWord) (stdout : List String) :
    PrintWord × List String :=
  (obj, stdout ++ [obj.word ++ "\n"])

/-- Modelled from the spec: `GetBinaryStringHashCode` belongs to the Ignite
binary library, whose implementation is not under `src/` (the snippet only
calls it).  The spec describes it only as the platform's hash of a string
("type identifier (hash of a fixed type name string)", "field identifier
(hash of field name)"), so it is modelled as a deterministic 32-bit string
hash; every claim settled against it depends only on it being a fixed
function of its string argument. -/
def GetBinaryStringHashCode (s : String) : Int :=
  let u : Nat := s.data.foldl (fun h c => (31 * h + c.toLower.toNat) % 2 ^ 32) 0
  if u < 2 ^ 31 then (u : Int) else (u : Int) - 2 ^ 32

/-- Modelled from the spec: `BinaryWriter` / `BinaryRawWriter` are "the
platform's binary reader/writer primitives", external to `src/`.  The raw
writer is modelled as the sequence of string values written so far. -/
structure BinaryWriter where
  written : List String
deriving DecidableEq, Repr

/-- `writer.RawWriter().WriteString(s)`: appends `s` to the written
sequence. -/
def BinaryWriter.WriteString (w : BinaryWriter) (s : String) : BinaryWriter :=
  { written := w.written ++ [s] }

/-- Modelled from the spec: `BinaryReader` / `BinaryRawReader` are "the
platform's binary reader/writer primitives", external to `src/`.  The raw
reader is modelled as the sequence of string values available plus a read
position. -/
structure BinaryReader where
  data : List String
  pos : Nat
deriving DecidableEq, Repr

/-- `reader.RawReader().ReadString()`: returns the string at the current
position (empty if exhausted) and advances the position. -/
def BinaryReader.ReadString (r : BinaryReader) : String × BinaryReader :=
  (r.data.getD r.pos "", { data := r.data, pos := r.pos + 1 })

/-! The `BinaryType<PrintWord>` specialization. -/

namespace BinaryTypePrintWord

/-- `static int32_t GetTypeId()` — `return GetBinaryStringHashCode("PrintWord");` -/
def GetTypeId : Int :=
  GetBinaryStringHashCode "PrintWord"

/-- `static void GetTypeName(std::string& dst)` — `dst = "PrintWord";`
modelled as returning the new value of `dst`. -/
def GetTypeName (dst : String) : String :=
  "PrintWord"

/-- `static int32_t GetFieldId(const char* name)` —
`return GetBinaryStringHashCode(name);` -/
def GetFieldId (name : String) : Int :=
  GetBinaryStringHashCode name

/-- `static int32_t GetHashCode(const PrintWord& obj)` — `return 0;` -/
def GetHashCode (obj : PrintWord) : Int :=
  0

/-- `static bool IsNull(const PrintWord& obj)` — `return false;` -/
def IsNull (obj : PrintWord) : Bool :=
  false

/-- `static void GetNull(PrintWord& dst)` — `dst = PrintWord("");`
modelled as returning the new value of `dst`. -/
def GetNull (dst : PrintWord) : PrintWord :=
  PrintWord.ofWord ""

/-- `static void Write(BinaryWriter& writer, const PrintWord& obj)` —
`writer.RawWriter().WriteString(obj.word);`.  `obj` is taken by const
reference; the pair returned carries the updated writer and the object as
it stands after the call. -/
def Write (writer : BinaryWriter) (obj : PrintWord) :
    BinaryWriter × PrintWord :=
  (writer.WriteString obj.word, obj)

/-- `static void Read(BinaryReader& reader, PrintWord& dst)` —
`dst.word = reader.RawReader().ReadString();`. -/
def Read (reader : BinaryReader) (dst : PrintWord) :
    BinaryReader × PrintWord :=
  let res := reader.ReadString
  (res.2, { dst with word := res.1 })

end BinaryTypePrintWord

/-! The `main` function. -/

/-- The fixed input sentence constructed in `main`:
`std::istringstream iss("Print words on different cluster nodes");`. -/
def inputSentence : String :=
  "Print words on different cluster nodes"

/-- Token extraction over a character list: a whitespace character ends
the current token (if any); non-whitespace characters accumulate into the
current token (held reversed in `acc`). -/
def extractTokens : List Char → List Char → List String
  | [], acc => if acc.isEmpty then [] else [String.mk acc.reverse]
  | c :: cs, acc =>
    if c.isWhitespace then
      if acc.isEmpty then extractTokens cs []
      else String.mk acc.reverse :: extractTokens cs []
    else extractTokens cs (c :: acc)

/-- `std::istream_iterator<std::string>` extraction over an
`istringstream`: the whitespace-separated tokens of the string, skipping
whitespace runs (no empty tokens). -/
def wsSplit (s : String) : List String :=
  extractTokens s.data []

/-- The word vector of `main`:
`std::vector<std::string> words((std::istream_iterator<std::string>(iss)), ...);`. -/
def mainWords : List String :=
  wsSplit inputSentence

/-- The loop of `main`: `for (std::string word : words) compute.Run(PrintWord(word));`
modelled as the list of `PrintWord` instances passed to `compute.Run`,
in dispatch order. -/
def mainDispatches : List PrintWord :=
  mainWords.map PrintWord.ofWord

/-! Theorems settling the claims. -/

/-- C1 (counterexample): the claim's count is false — the program does not
issue exactly five `compute.Run` dispatch calls on its fixed input
sentence (it issues six). -/
theorem dispatch_count_is_not_five : ¬ mainDispatches.length = 5 := by
  decide

/-- C1 (amended): on the fixed input sentence
"Print words on different cluster nodes", exactly six compute-dispatch
calls occur, carrying the words "Print", "words", "on", "different",
"cluster", "nodes" in that order. -/
theorem dispatch_sequence_is_six_words :
    mainDispatches.length = 6 ∧
      mainDispatches =
        [PrintWord.ofWord "Print", PrintWord.ofWord "words",
         PrintWord.ofWord "on", PrintWord.ofWord "different",
         PrintWord.ofWord "cluster", PrintWord.ofWord "nodes"] := by
  decide

/-- C2: serializing a `PrintWord` with `BinaryType<PrintWord>::Write` into
a fresh writer and deserializing the written bytes with
`BinaryType<PrintWord>::Read` yields a `PrintWord` whose `word` field
equals the original's (round-trip identity), for every original object and
every pre-existing destination object. -/
theorem write_read_roundtrip (obj dst : PrintWord) :
    (BinaryTypePrintWord.Read
        { data := (BinaryTypePrintWord.Write { written := [] } obj).1.written,
          pos := 0 }
        dst).2.word = obj.word := by
  rfl

/-- C3: the sequence of payload words carried by the dispatch calls of
`main` equals the whitespace-split of the fixed input string, one blocking
dispatch per word, in input order. -/
theorem dispatch_payloads_eq_split :
    mainDispatches.map PrintWord.word = wsSplit inputSentence ∧
      mainDispatches.length = (wsSplit inputSentence).length := by
  decide

/-- C4: `PrintWord::Call` takes no arguments and returns no value; its only
effect is appending the stored `word` followed by the line terminator to
standard output, leaving the object and the prior output unchanged. -/
theorem call_only_prints_word (obj : PrintWord) (stdout : List String) :
    (obj.Call stdout).1 = obj ∧
      (obj.Call stdout).2 = stdout ++ [obj.word ++ "\n"] := by
  exact ⟨rfl, rfl⟩

/-- C5: `BinaryType<PrintWord>::GetHashCode` returns the constant 0 for
every `PrintWord` object, regardless of its `word` content. -/
theorem getHashCode_always_zero (obj : PrintWord) :
    BinaryTypePrintWord.GetHashCode obj = 0 := by
  rfl

/-- C6: `BinaryType<PrintWord>::GetTypeId` returns the binary-string hash
of the fixed type name "PrintWord", and `GetFieldId` returns the
binary-string hash of the given field name, for every field name. -/
theorem typeId_and_fieldId_are_hashes (name : String) :
    BinaryTypePrintWord.GetTypeId = GetBinaryStringHashCode "PrintWord" ∧
      BinaryTypePrintWord.GetFieldId name = GetBinaryStringHashCode name := by
  exact ⟨rfl, rfl⟩

/-- C7: `BinaryType<PrintWord>::Write` does not mutate the `PrintWord`
instance: after the call, the object's `word` field is unchanged. -/
theorem write_preserves_object (writer : BinaryWriter) (obj : PrintWord) :
    (BinaryTypePrintWord.Write writer obj).2.word = obj.word := by
  rfl

/-- C8: `BinaryType<PrintWord>::IsNull` returns `false` for every
`PrintWord` value, in particular for the null-sentinel value produced by
`GetNull`, so no `PrintWord` is ever classified as null. -/
theorem isNull_always_false (obj dst : PrintWord) :
    BinaryTypePrintWord.IsNull obj = false ∧
      BinaryTypePrintWord.IsNull (BinaryTypePrintWord.GetNull dst) = false := by
  exact ⟨rfl, rfl⟩

/-- C9: `BinaryType<PrintWord>::GetNull` produces a `PrintWord` whose
`word` field is the empty string, which equals the `word` field of a
default-constructed `PrintWord`. -/
theorem getNull_is_empty_default (dst : PrintWord) :
    (BinaryTypePrintWord.GetNull dst).word = "" ∧
      (BinaryTypePrintWord.GetNull dst).word = PrintWord.defaultCtor.word := by
  exact ⟨rfl, rfl⟩

/-- C10: `BinaryType<PrintWord>::GetTypeId` equals `GetFieldId` applied to
the string that `GetTypeName` writes into its output argument (both are
the binary-string hash of "PrintWord"), and `GetTypeId` is deterministic:
it is a fixed value, equal on any two evaluations. -/
theorem typeId_eq_fieldId_of_typeName (dst : String) :
    BinaryTypePrintWord.GetTypeId =
        BinaryTypePrintWord.GetFieldId (BinaryTypePrintWord.GetTypeName dst) ∧
      BinaryTypePrintWord.GetTypeId = BinaryTypePrintWord.GetTypeId := by
  exact ⟨rfl, rfl⟩

end ComputeRun
